import Mathlib

/-!
Shallow embedding of the `jwt` package (current version of `jwt.go`):
a verifier for Google-issued compact tokens backed by a refreshing key
cache.  Pure Go functions become Lean functions; the mutation of the
`keyCache` struct is modelled by explicit state passing; the external
primitives the code delegates to (JSON decoding from `encoding/json`,
SHA-256 and RSA-PKCS#1 v1.5 from the crypto packages, and the injected
`KeyFetcherFunc`) are parameters.  `base64.RawURLEncoding.DecodeString`
and `strings.Split` are implemented concretely.  Wall-clock reads
(`time.Now`) become an explicit `now : Int` (Unix seconds), and whether
the injected fetch function was invoked is recorded in a `fetched` flag.
-/

namespace Jwt

/-- Value of one character of the base64url alphabet used by
`base64.RawURLEncoding` (A-Z, a-z, 0-9, -, _), `none` for any other
character. -/
def b64CharVal (c : Char) : Option Nat :=
  if 'A' ≤ c ∧ c ≤ 'Z' then some (c.toNat - 65)
  else if 'a' ≤ c ∧ c ≤ 'z' then some (c.toNat - 97 + 26)
  else if '0' ≤ c ∧ c ≤ '9' then some (c.toNat - 48 + 52)
  else if c = '-' then some 62
  else if c = '_' then some 63
  else none

/-- Map every character to its alphabet value; fail on the first
character outside the alphabet. -/
def b64Vals : List Char → Option (List Nat)
  | [] => some []
  | c :: cs =>
    match b64CharVal c, b64Vals cs with
    | some v, some vs => some (v :: vs)
    | _, _ => none

/-- Reassemble 6-bit values into bytes, four values to three bytes; an
unpadded final quantum of two or three values yields one or two bytes,
a final quantum of a single value is corrupt input. -/
def b64Group : List Nat → Option (List Nat)
  | [] => some []
  | [_] => none
  | [a, b] => some [a * 4 + b / 16]
  | [a, b, c] => some [a * 4 + b / 16, b % 16 * 16 + c / 4]
  | a :: b :: c :: d :: rest =>
    match b64Group rest with
    | some bs => some ((a * 4 + b / 16) :: (b % 16 * 16 + c / 4) :: (c % 4 * 64 + d) :: bs)
    | none => none

/-- `base64.RawURLEncoding.DecodeString`: URL alphabet, no padding,
carriage returns and newlines ignored. -/
def b64UrlDecode (s : String) : Option (List Nat) :=
  match b64Vals (s.data.filter (fun c => !(c == '\r' || c == '\n'))) with
  | some vs => b64Group vs
  | none => none

/-- `strings.Split` with a one-character separator: split at every
occurrence, keeping empty pieces (the empty string splits to one empty
piece). -/
def splitChar (sep : Char) : List Char → List (List Char)
  | [] => [[]]
  | c :: cs =>
    if c = sep then [] :: splitChar sep cs
    else
      match splitChar sep cs with
      | [] => [[c]]
      | p :: ps => (c :: p) :: ps

/-- `strings.Split(tokenString, ".")`. -/
def splitDots (s : String) : List String :=
  (splitChar '.' s.data).map (fun cs => String.mk cs)

/-- `big.Int.SetBytes`: big-endian bytes to an unsigned integer. -/
def bytesToNat (bs : List Nat) : Nat :=
  bs.foldl (fun acc b => acc * 256 + b) 0

/-- `big.Int.Int64` followed by `int(...)` on a 64-bit platform: the low
64 bits in two's complement. -/
def int64OfNat (n : Nat) : Int :=
  let m : Nat := n % 2 ^ 64
  if m < 2 ^ 63 then (m : Int) else (m : Int) - 2 ^ 64

/-- `rsa.PublicKey`. -/
structure PublicKey where
  N : Nat
  E : Int
deriving DecidableEq

/-- The header part of the `JWT` struct. -/
structure Header where
  ALG : String
  KID : String
  TYP : String
deriving DecidableEq

/-- The claims part of the `JWT` struct, fields in source order. -/
structure Claims where
  ISS : String
  AZP : String
  AUD : String
  SUB : String
  Email : String
  EmailVerified : Bool
  ATHash : String
  Name : String
  Picture : String
  GivenName : String
  FamilyName : String
  Locale : String
  Nonce : String
  Profile : String
  HD : String
  IAT : Int
  EXP : Int
deriving DecidableEq

/-- The `JWT` struct. -/
structure JWT where
  Header : Header
  Claims : Claims
  Signature : String
deriving DecidableEq

/-- One entry of the `jwks` struct's `Keys` slice. -/
structure JWKSKey where
  N : String
  E : String
  KID : String
deriving DecidableEq

/-- The `jwks` struct; `Keys = none` models a `nil` slice (the `keys`
list absent from the JSON document), `some []` a present empty list. -/
structure Jwks where
  Keys : Option (List JWKSKey)
deriving DecidableEq

/-- The external primitives the code delegates to: `encoding/json`
decoding of the three document shapes, SHA-256, and the
RSA-PKCS#1 v1.5 signature check. -/
structure Prims where
  jsonHeader : List Nat → Option Header
  jsonClaims : List Nat → Option Claims
  jsonJwks : List Nat → Option Jwks
  sha256 : String → List Nat
  rsaVerify : PublicKey → List Nat → List Nat → Bool

/-- Error sites of `parseJWKS`. -/
inductive JwksError where
  | decodeJson
  | emptyKeyList
deriving DecidableEq

/-- Error sites of `UpdatePublicKey`. -/
inductive UpdateError where
  | parse (e : JwksError)
  | missingInfo
  | badModulus
  | badExponent
  | noPublicKeys
deriving DecidableEq

/-- `parseJWKS`: JSON-decode the document, then reject a `nil` key
list. -/
def parseJWKS (P : Prims) (doc : List Nat) : Except JwksError Jwks :=
  match P.jsonJwks doc with
  | none => .error .decodeJson
  | some ks =>
    match ks.Keys with
    | none => .error .emptyKeyList
    | some _ => .ok ks

/-- The loop body of `UpdatePublicKey`: walk the entries in order,
rejecting an entry with an empty field, then an undecodable modulus,
then an undecodable exponent; a map insert is modelled by prepending
(lookup returns the most recent binding, as a Go map overwrite does). -/
def buildKeyMap : List JWKSKey → List (String × PublicKey) →
    Except UpdateError (List (String × PublicKey))
  | [], m => .ok m
  | k :: rest, m =>
    if k.E = "" ∨ k.N = "" ∨ k.KID = "" then .error .missingInfo
    else
      match b64UrlDecode k.N with
      | none => .error .badModulus
      | some dn =>
        match b64UrlDecode k.E with
        | none => .error .badExponent
        | some de =>
          buildKeyMap rest ((k.KID, ⟨bytesToNat dn, int64OfNat (bytesToNat de)⟩) :: m)

/-- The mutable part of the `keyCache` struct. -/
structure CacheState where
  publicKeys : List (String × PublicKey)
  keyExpire : Int
deriving DecidableEq

/-- `keyCache.UpdatePublicKey`: the state is only assigned after the
whole document decodes, so an error installs nothing. -/
def UpdatePublicKey (P : Prims) (doc : List Nat) (expiration : Int) :
    Except UpdateError CacheState :=
  match parseJWKS P doc with
  | .error e => .error (.parse e)
  | .ok ks =>
    match buildKeyMap (ks.Keys.getD []) [] with
    | .error e => .error e
    | .ok m =>
      if m.length = 0 then .error .noPublicKeys
      else .ok { publicKeys := m, keyExpire := expiration }

/-- The outcome of the single `KeyFetcherFunc` invocation a
`retrieveKey` call can make: an error, or a document with its expiry
deadline. -/
inductive FetchResult where
  | failure
  | success (doc : List Nat) (expires : Int)
deriving DecidableEq

/-- Error sites of `retrieveKey`. -/
inductive RetrieveError where
  | fetchKey
  | updateKeyCache (e : UpdateError)
deriving DecidableEq

/-- What a `retrieveKey` call produces: the Go return value
`(*rsa.PublicKey, error)` as an `Except` of an `Option`, the cache
state after the call, and whether the fetch function was invoked. -/
structure RetrieveResult where
  key : Except RetrieveError (Option PublicKey)
  state : CacheState
  fetched : Bool

/-- `keyCache.retrieveKey`: refresh when `v.keyExpire.Before(time.Now())`,
that is when `keyExpire < now`; on a fetch or update error the previous
state is kept and the error returned; otherwise look the identifier up
in the current map, a missing identifier giving `none` without error. -/
def retrieveKey (P : Prims) (st : CacheState) (fetch : FetchResult) (now : Int)
    (kid : String) : RetrieveResult :=
  if st.keyExpire < now then
    match fetch with
    | .failure => ⟨.error .fetchKey, st, true⟩
    | .success doc expires =>
      match UpdatePublicKey P doc expires with
      | .error e => ⟨.error (.updateKeyCache e), st, true⟩
      | .ok st' => ⟨.ok (st'.publicKeys.lookup kid), st', true⟩
  else ⟨.ok (st.publicKeys.lookup kid), st, false⟩

/-- `parseJWT`: base64url-decode the header segment, JSON-decode it,
the same for the claims segment, and keep the signature segment
verbatim.  The Go function's distinct error messages all collapse to
`none` here; the orchestrator wraps them in one rejection. -/
def parseJWT (P : Prims) (header claims signature : String) : Option JWT :=
  match b64UrlDecode header with
  | none => none
  | some h =>
    match P.jsonHeader h with
    | none => none
    | some hd =>
      match b64UrlDecode claims with
      | none => none
      | some c =>
        match P.jsonClaims c with
        | none => none
        | some cl => some ⟨hd, cl, signature⟩

/-- Error sites of `verifySignature`. -/
inductive SigError where
  | badBase64
  | verifyFailed
deriving DecidableEq

/-- `verifySignature`: base64url-decode the signature, then check it
against the SHA-256 digest of the signed string under
RSA-PKCS#1 v1.5.  `none` means the signature verified. -/
def verifySignature (P : Prims) (signedString signature : String) (key : PublicKey) :
    Option SigError :=
  match b64UrlDecode signature with
  | none => some .badBase64
  | some sig =>
    if P.rsaVerify key (P.sha256 signedString) sig then none else some .verifyFailed

/-- The configuration part of the `Verifier` struct (its `keyCache` is
passed separately as explicit state). -/
structure Verifier where
  clientID : String
  issuer : String
deriving DecidableEq

/-- The configuration `NewVerifier` builds. -/
def NewVerifier (clientID : String) : Verifier :=
  ⟨clientID, "https://accounts.google.com"⟩

/-- The rejection reasons of `ParseAndVerify`, one per `return` site. -/
inductive VerifyError where
  | malformedToken
  | decodeToken
  | unsupportedAlg (alg : String)
  | retrieveKeyFailed (e : RetrieveError)
  | keyNotFound
  | badSignature (e : SigError)
  | invalidIssuer
  | audienceMismatch
  | tokenExpired
  | tokenNotYetValid
deriving DecidableEq

/-- What a `ParseAndVerify` call produces: the Go return value
`(*JWT, error)` as a pair of options, plus the cache state after the
call and whether the key fetch function was invoked during it. -/
structure PVResult where
  token : Option JWT
  err : Option VerifyError
  state : CacheState
  fetched : Bool

/-- `Verifier.ParseAndVerify`: split on dots, require exactly three
segments, decode, check the algorithm is RS256, resolve the key through
the cache, verify the signature over the first two raw segments joined
by a dot, then check issuer, audience, expiry (`EXP <= now` rejects)
and issued-at (`IAT > now` rejects), short-circuiting on the first
failure. -/
def ParseAndVerify (P : Prims) (v : Verifier) (st : CacheState) (fetch : FetchResult)
    (now : Int) (tokenString : String) : PVResult :=
  match splitDots tokenString with
  | [h, c, s] =>
    match parseJWT P h c s with
    | none => ⟨none, some .decodeToken, st, false⟩
    | some t =>
      if t.Header.ALG ≠ "RS256" then ⟨none, some (.unsupportedAlg t.Header.ALG), st, false⟩
      else
        let r := retrieveKey P st fetch now t.Header.KID
        match r.key with
        | .error e => ⟨none, some (.retrieveKeyFailed e), r.state, r.fetched⟩
        | .ok none => ⟨none, some .keyNotFound, r.state, r.fetched⟩
        | .ok (some key) =>
          match verifySignature P (h ++ "." ++ c) s key with
          | some e => ⟨none, some (.badSignature e), r.state, r.fetched⟩
          | none =>
            if t.Claims.ISS ≠ v.issuer then ⟨none, some .invalidIssuer, r.state, r.fetched⟩
            else if t.Claims.AUD ≠ v.clientID then
              ⟨none, some .audienceMismatch, r.state, r.fetched⟩
            else if t.Claims.EXP ≤ now then ⟨none, some .tokenExpired, r.state, r.fetched⟩
            else if t.Claims.IAT > now then ⟨none, some .tokenNotYetValid, r.state, r.fetched⟩
            else ⟨some t, none, r.state, r.fetched⟩
  | _ => ⟨none, some .malformedToken, st, false⟩

/-- Spec-level classification of the key-set decoder's error sites:
the JSON decode failure is the malformed-document kind, a `nil` or
empty entry list is the empty-key-set kind, an entry with an empty
field is the malformed-key-entry kind, and an undecodable base64 field
is its own kind. -/
inductive KeySetErrorKind where
  | malformedDocument
  | emptyKeySet
  | malformedKeyEntry
  | badEncoding
deriving DecidableEq

/-- Map each error site of the decoder to its spec-level kind. -/
def updateErrorKind : UpdateError → KeySetErrorKind
  | .parse .decodeJson => .malformedDocument
  | .parse .emptyKeyList => .emptyKeySet
  | .noPublicKeys => .emptyKeySet
  | .missingInfo => .malformedKeyEntry
  | .badModulus => .badEncoding
  | .badExponent => .badEncoding

/-- An entry the decoder's loop accepts: all three fields non-empty and
both base64url fields decodable. -/
def completeEntry (k : JWKSKey) : Prop :=
  ¬(k.E = "" ∨ k.N = "" ∨ k.KID = "") ∧
    (b64UrlDecode k.N).isSome = true ∧ (b64UrlDecode k.E).isSome = true

instance (k : JWKSKey) : Decidable (completeEntry k) := by
  unfold completeEntry; infer_instance

/-- A header record used by the closed instances below. -/
def testHeader : Header := ⟨"RS256", "k1", "JWT"⟩

/-- A header whose algorithm is not RS256. -/
def testHeaderWrongAlg : Header := ⟨"HS256", "k1", "JWT"⟩

/-- A header naming a key identifier absent from `testState`. -/
def testHeaderOtherKid : Header := ⟨"RS256", "k2", "JWT"⟩

/-- Claims matching `testVerifier`, issued at 10 and expiring at 100. -/
def testClaims : Claims :=
  ⟨"https://accounts.google.com", "", "client-123", "", "", false, "", "", "", "", "",
    "", "", "", "", 10, 100⟩

/-- Claims matching `testVerifier`, issued at 200 and expiring at 1000. -/
def testClaimsFuture : Claims :=
  ⟨"https://accounts.google.com", "", "client-123", "", "", false, "", "", "", "", "",
    "", "", "", "", 200, 1000⟩

/-- Concrete external primitives for the closed instances below: the
JSON oracles are small lookup tables on the decoded bytes (the byte
strings 105, 109, 113 are the decodings of the base64url segments
"aa", "ba", "ca"), and the RSA check accepts everything. -/
def testPrims : Prims where
  jsonHeader := fun bs =>
    if bs = [109] then some testHeaderWrongAlg
    else if bs = [113] then some testHeaderOtherKid
    else some testHeader
  jsonClaims := fun bs => if bs = [113] then some testClaimsFuture else some testClaims
  jsonJwks := fun doc =>
    if doc = [0] then none
    else if doc = [1] then some ⟨none⟩
    else if doc = [2] then some ⟨some []⟩
    else if doc = [3] then some ⟨some [⟨"", "aa", "k"⟩]⟩
    else if doc = [4] then some ⟨some [⟨"aa", "aa", "k9"⟩]⟩
    else none
  sha256 := fun _ => []
  rsaVerify := fun _ _ _ => true

/-- The verifier configuration for client "client-123". -/
def testVerifier : Verifier := NewVerifier "client-123"

/-- A cache state holding key "k1", fresh at any time up to 200. -/
def testState : CacheState := ⟨[("k1", ⟨77, 65537⟩)], 200⟩

/-- A cache state holding key "k1" with deadline 50. -/
def staleState : CacheState := ⟨[("k1", ⟨77, 65537⟩)], 50⟩

/-- C10: whenever `ParseAndVerify` returns a non-nil error, the
returned token pointer is nil — a caller never receives a decoded token
record together with a rejection. -/
theorem parseAndVerify_no_token_with_error (P : Prims) (v : Verifier) (st : CacheState)
    (fetch : FetchResult) (now : Int) (tok : String) :
    (ParseAndVerify P v st fetch now tok).token = none ∨
    (ParseAndVerify P v st fetch now tok).err = none := by
  unfold ParseAndVerify
  split
  · rename_i h c s hsp
    cases hp : parseJWT P h c s with
    | none => simp
    | some t =>
      by_cases halg : t.Header.ALG = "RS256"
      · simp only [halg, ne_eq, not_true_eq_false, if_false, if_true, ite_false, ite_true]
        cases hk : (retrieveKey P st fetch now t.Header.KID).key with
        | error e => simp [hk]
        | ok k =>
          cases k with
          | none => simp [hk]
          | some key =>
            cases hs : verifySignature P (h ++ "." ++ c) s key with
            | some e => simp [hk, hs]
            | none =>
              by_cases h1 : t.Claims.ISS = v.issuer <;>
                by_cases h2 : t.Claims.AUD = v.clientID <;>
                by_cases h3 : t.Claims.EXP ≤ now <;>
                by_cases h4 : now < t.Claims.IAT <;>
                simp [hk, hs, h1, h2, h3, h4]
      · simp [halg]
  · simp

/-- C2 (amended): `retrieveKey` at time `now` with stored deadline `d`
invokes the injected fetch function if and only if `d < now` holds
strictly; a lookup occurring exactly at the deadline does not refresh. -/
theorem retrieveKey_fetch_iff (P : Prims) (st : CacheState) (fetch : FetchResult)
    (now : Int) (kid : String) :
    (retrieveKey P st fetch now kid).fetched = true ↔ st.keyExpire < now := by
  unfold retrieveKey
  by_cases h : st.keyExpire < now
  · rw [if_pos h]
    cases fetch with
    | failure => simpa using h
    | success doc expires =>
      cases hU : UpdatePublicKey P doc expires <;> simp [hU, h]
  · rw [if_neg h]
    simpa using h

/-- C2 (counterexample): with stored deadline 50, a lookup at time
`now = 50` (so `now >= deadline` holds) does not invoke the fetch
function, refuting that the fetch is invoked whenever `now >= deadline`. -/
theorem retrieveKey_at_deadline_counterexample :
    ¬ ((retrieveKey testPrims staleState .failure 50 "k1").fetched = true ↔
        (50 : Int) ≥ staleState.keyExpire) := by decide

/-- C3: when a refresh is attempted (`deadline < now`) and the fetch
fails, or the fetched document fails to decode for any reason, the
previously stored key map and deadline are left exactly as they were
and `retrieveKey` returns an error rather than a key. -/
theorem retrieveKey_failed_refresh (P : Prims) (st : CacheState) (fetch : FetchResult)
    (now : Int) (kid : String) (hstale : st.keyExpire < now) :
    (fetch = .failure →
       retrieveKey P st fetch now kid = ⟨.error .fetchKey, st, true⟩) ∧
    (∀ doc expires e, fetch = .success doc expires →
       UpdatePublicKey P doc expires = .error e →
       retrieveKey P st fetch now kid = ⟨.error (.updateKeyCache e), st, true⟩) := by
  constructor
  · rintro rfl
    unfold retrieveKey
    rw [if_pos hstale]
  · rintro doc expires e rfl hU
    unfold retrieveKey
    rw [if_pos hstale]
    simp [hU]

/-- C3 witness: a lookup at time 100 against `staleState` (deadline 50)
with a failing fetch returns the fetch error and leaves the state
unchanged. -/
theorem retrieveKey_failed_refresh_witness :
    retrieveKey testPrims staleState .failure 100 "k1"
      = ⟨.error .fetchKey, staleState, true⟩ :=
  (retrieveKey_failed_refresh testPrims staleState .failure 100 "k1" (by decide)).1 rfl

/-- Whenever the input splits into exactly three segments, no branch of
the orchestrator returns the malformed-token rejection. -/
theorem parseAndVerify_three_segments (P : Prims) (v : Verifier) (st : CacheState)
    (fetch : FetchResult) (now : Int) (tok h c s : String)
    (hsplit : splitDots tok = [h, c, s]) :
    (ParseAndVerify P v st fetch now tok).err ≠ some .malformedToken := by
  unfold ParseAndVerify
  rw [hsplit]
  cases hp : parseJWT P h c s with
  | none => simp [hp]
  | some t =>
    by_cases halg : t.Header.ALG = "RS256"
    · cases hk : (retrieveKey P st fetch now t.Header.KID).key with
      | error e => simp [hp, halg, hk]
      | ok k =>
        cases k with
        | none => simp [hp, halg, hk]
        | some key =>
          cases hs : verifySignature P (h ++ "." ++ c) s key with
          | some e => simp [hp, halg, hk, hs]
          | none =>
            by_cases h1 : t.Claims.ISS = v.issuer <;>
              by_cases h2 : t.Claims.AUD = v.clientID <;>
              by_cases h3 : t.Claims.EXP ≤ now <;>
              by_cases h4 : now < t.Claims.IAT <;>
              simp [hp, halg, hk, hs, h1, h2, h3, h4]
    · simp [hp, halg]

/-- C4: an input splitting into three dot-separated segments with an
empty third segment is not rejected as malformed on account of the
empty signature: the decoding stage's outcome is independent of the
signature segment, which is retained verbatim, so such a token
proceeds past decoding and fails, if at all, only at a later check. -/
theorem emptySignature_not_malformed (P : Prims) (v : Verifier) (st : CacheState)
    (fetch : FetchResult) (now : Int) (tok h c : String)
    (hsplit : splitDots tok = [h, c, ""]) :
    ((ParseAndVerify P v st fetch now tok).err ≠ some .malformedToken) ∧
    (∀ t, parseJWT P h c "" = some t → t.Signature = "") ∧
    (parseJWT P h c "" = none → ∀ s2, parseJWT P h c s2 = none) := by
  refine ⟨parseAndVerify_three_segments P v st fetch now tok h c "" hsplit, ?_, ?_⟩
  · intro t hp
    unfold parseJWT at hp
    cases hb : b64UrlDecode h with
    | none => simp only [hb] at hp; exact Option.noConfusion hp
    | some hbytes =>
      cases hh : P.jsonHeader hbytes with
      | none => simp only [hb, hh] at hp; exact Option.noConfusion hp
      | some hd =>
        cases hc : b64UrlDecode c with
        | none => simp only [hb, hh, hc] at hp; exact Option.noConfusion hp
        | some cbytes =>
          cases hcl : P.jsonClaims cbytes with
          | none => simp only [hb, hh, hc, hcl] at hp; exact Option.noConfusion hp
          | some cl =>
            simp only [hb, hh, hc, hcl, Option.some.injEq] at hp
            rw [← hp]
  · intro hp s2
    unfold parseJWT at hp ⊢
    cases hb : b64UrlDecode h with
    | none => simp only [hb]
    | some hbytes =>
      cases hh : P.jsonHeader hbytes with
      | none => simp only [hb, hh]
      | some hd =>
        cases hc : b64UrlDecode c with
        | none => simp only [hb, hh, hc]
        | some cbytes =>
          cases hcl : P.jsonClaims cbytes with
          | none => simp only [hb, hh, hc, hcl]
          | some cl =>
            simp only [hb, hh, hc, hcl] at hp
            exact Option.noConfusion hp

/-- C4 witness: the token "aa.aa." has an empty signature segment and
is not rejected as malformed. -/
theorem emptySignature_not_malformed_witness :
    (ParseAndVerify testPrims testVerifier testState .failure 50 "aa.aa.").err
      ≠ some .malformedToken :=
  (emptySignature_not_malformed testPrims testVerifier testState .failure 50
    "aa.aa." "aa" "aa" rfl).1

/-- C5: a token reaching the expiry check at time `now` is rejected
with the token-expired reason exactly when its expiry claim is not
strictly greater than `now`; in particular `EXP = now` is rejected. -/
theorem tokenExpired_iff (P : Prims) (v : Verifier) (st : CacheState) (fetch : FetchResult)
    (now : Int) (tok h c s : String) (t : JWT) (key : PublicKey)
    (hsplit : splitDots tok = [h, c, s])
    (hparse : parseJWT P h c s = some t)
    (halg : t.Header.ALG = "RS256")
    (hkey : (retrieveKey P st fetch now t.Header.KID).key = .ok (some key))
    (hsig : verifySignature P (h ++ "." ++ c) s key = none)
    (hiss : t.Claims.ISS = v.issuer)
    (haud : t.Claims.AUD = v.clientID) :
    ((ParseAndVerify P v st fetch now tok).err = some .tokenExpired ↔ t.Claims.EXP ≤ now) := by
  by_cases h3 : t.Claims.EXP ≤ now <;> by_cases h4 : now < t.Claims.IAT <;>
    (unfold ParseAndVerify; rw [hsplit]; simp [hparse, halg, hkey, hsig, hiss, haud, h3, h4])

/-- C5 witness: a token whose expiry claim equals the current time
(both 100) is rejected as expired. -/
theorem tokenExpired_iff_witness :
    (ParseAndVerify testPrims testVerifier testState .failure 100 "aa.aa.aa").err
      = some .tokenExpired :=
  (tokenExpired_iff testPrims testVerifier testState .failure 100 "aa.aa.aa"
    "aa" "aa" "aa" ⟨testHeader, testClaims, "aa"⟩ ⟨77, 65537⟩
    rfl rfl rfl rfl rfl rfl rfl).mpr (by decide)

/-- C6: a token reaching the issued-at check at time `now` is rejected
with the not-yet-valid reason exactly when its issued-at claim is
strictly greater than `now`; a token with `IAT = now` passes the check
(and, the check being last, is accepted). -/
theorem tokenNotYetValid_iff (P : Prims) (v : Verifier) (st : CacheState)
    (fetch : FetchResult) (now : Int) (tok h c s : String) (t : JWT) (key : PublicKey)
    (hsplit : splitDots tok = [h, c, s])
    (hparse : parseJWT P h c s = some t)
    (halg : t.Header.ALG = "RS256")
    (hkey : (retrieveKey P st fetch now t.Header.KID).key = .ok (some key))
    (hsig : verifySignature P (h ++ "." ++ c) s key = none)
    (hiss : t.Claims.ISS = v.issuer)
    (haud : t.Claims.AUD = v.clientID)
    (hexp : now < t.Claims.EXP) :
    ((ParseAndVerify P v st fetch now tok).err = some .tokenNotYetValid ↔
        now < t.Claims.IAT) ∧
    (¬ now < t.Claims.IAT → (ParseAndVerify P v st fetch now tok).err = none) := by
  have h3 : ¬ t.Claims.EXP ≤ now := not_le.mpr hexp
  constructor
  · by_cases h4 : now < t.Claims.IAT <;>
      (unfold ParseAndVerify; rw [hsplit]; simp [hparse, halg, hkey, hsig, hiss, haud, h3, h4])
  · intro h4
    unfold ParseAndVerify; rw [hsplit]; simp [hparse, halg, hkey, hsig, hiss, haud, h3, h4]

/-- C6 witness: a token issued at 200 and checked at time 100 is
rejected as issued in the future. -/
theorem tokenNotYetValid_iff_witness :
    (ParseAndVerify testPrims testVerifier testState .failure 100 "aa.ca.aa").err
      = some .tokenNotYetValid :=
  ((tokenNotYetValid_iff testPrims testVerifier testState .failure 100 "aa.ca.aa"
    "aa" "ca" "aa" ⟨testHeader, testClaimsFuture, "aa"⟩ ⟨77, 65537⟩
    rfl rfl rfl rfl rfl rfl rfl (by decide)).1).mpr (by decide)

/-- C7: when the token's key identifier is absent from the current
(possibly freshly refreshed) key set, `retrieveKey` returns no key and
no error, and the orchestrator maps that outcome to the key-not-found
rejection, which differs from every key-resolution-failed rejection. -/
theorem keyNotFound_vs_resolutionFailed (P : Prims) (v : Verifier) (st : CacheState)
    (fetch : FetchResult) (now : Int) (tok h c s : String) (t : JWT)
    (hsplit : splitDots tok = [h, c, s])
    (hparse : parseJWT P h c s = some t)
    (halg : t.Header.ALG = "RS256")
    (hkey : (retrieveKey P st fetch now t.Header.KID).key = .ok none) :
    (ParseAndVerify P v st fetch now tok).err = some .keyNotFound ∧
    (∀ e, (VerifyError.keyNotFound : VerifyError) ≠ .retrieveKeyFailed e) ∧
    (¬ st.keyExpire < now → st.publicKeys.lookup t.Header.KID = none →
       retrieveKey P st fetch now t.Header.KID = ⟨.ok none, st, false⟩) ∧
    (∀ doc expires st2, fetch = .success doc expires → st.keyExpire < now →
       UpdatePublicKey P doc expires = .ok st2 → st2.publicKeys.lookup t.Header.KID = none →
       retrieveKey P st fetch now t.Header.KID = ⟨.ok none, st2, true⟩) := by
  refine ⟨?_, ?_, ?_, ?_⟩
  · unfold ParseAndVerify; rw [hsplit]; simp [hparse, halg, hkey]
  · intro e; simp
  · intro hfresh hlook
    unfold retrieveKey
    rw [if_neg hfresh, hlook]
  · rintro doc expires st2 rfl hstale hupd hlook
    unfold retrieveKey
    rw [if_pos hstale]
    simp [hupd, hlook]

/-- C7 witness: a token naming key "k2", looked up against a fresh
cache holding only "k1", is rejected as key-not-found. -/
theorem keyNotFound_vs_resolutionFailed_witness :
    (ParseAndVerify testPrims testVerifier testState .failure 100 "ca.aa.aa").err
      = some .keyNotFound :=
  (keyNotFound_vs_resolutionFailed testPrims testVerifier testState .failure 100
    "ca.aa.aa" "ca" "aa" "aa" ⟨testHeaderOtherKid, testClaims, "aa"⟩
    rfl rfl rfl rfl).1

/-- If every entry before some offending entry is complete and the
offending entry has an empty field, the decoder's loop stops with the
missing-info error, whatever accumulator it carries. -/
theorem buildKeyMap_missingInfo (l1 : List JWKSKey) (k : JWKSKey) (l2 : List JWKSKey)
    (hgood : ∀ k2 ∈ l1, completeEntry k2)
    (hbad : k.E = "" ∨ k.N = "" ∨ k.KID = "") :
    ∀ m, buildKeyMap (l1 ++ k :: l2) m = .error .missingInfo := by
  induction l1 with
  | nil =>
    intro m
    simp only [List.nil_append]
    unfold buildKeyMap
    rw [if_pos hbad]
  | cons a rest ih =>
    intro m
    obtain ⟨hne, hN, hE⟩ := hgood a (List.mem_cons_self a rest)
    obtain ⟨dn, hdn⟩ := Option.isSome_iff_exists.mp hN
    obtain ⟨de, hde⟩ := Option.isSome_iff_exists.mp hE
    have ih2 := ih (fun k2 hk2 => hgood k2 (List.mem_cons_of_mem a hk2))
    rw [List.cons_append]
    unfold buildKeyMap
    rw [if_neg hne]
    simp only [hdn, hde]
    exact ih2 _

/-- On a list of complete entries, the decoder's loop succeeds and
produces exactly the entries' identifiers (newest first) on top of the
accumulator. -/
theorem buildKeyMap_complete (l : List JWKSKey) (hgood : ∀ k ∈ l, completeEntry k) :
    ∀ m, ∃ m2, buildKeyMap l m = .ok m2 ∧
      m2.map Prod.fst = (l.map JWKSKey.KID).reverse ++ m.map Prod.fst := by
  induction l with
  | nil => intro m; exact ⟨m, rfl, by simp⟩
  | cons a rest ih =>
    intro m
    obtain ⟨hne, hN, hE⟩ := hgood a (List.mem_cons_self a rest)
    obtain ⟨dn, hdn⟩ := Option.isSome_iff_exists.mp hN
    obtain ⟨de, hde⟩ := Option.isSome_iff_exists.mp hE
    obtain ⟨m2, h1, h2⟩ := ih (fun k2 hk2 => hgood k2 (List.mem_cons_of_mem a hk2))
      ((a.KID, ⟨bytesToNat dn, int64OfNat (bytesToNat de)⟩) :: m)
    refine ⟨m2, ?_, ?_⟩
    · unfold buildKeyMap
      rw [if_neg hne]
      simp only [hdn, hde]
      exact h1
    · rw [h2]
      simp [List.reverse_cons, List.append_assoc]

/-- C8: the key-set decoder fails with the JSON-decode error on an
unparseable document, with the empty-key-list / no-public-keys errors
on a parseable document whose entry list is absent or empty, and with
the missing-info error on a document containing an entry with an empty
field (given that the preceding entries are complete); the three
spec-level error kinds are mutually distinct, and a failing document
installs nothing: a refresh through `retrieveKey` keeps the old state
and surfaces the error. -/
theorem keySetDecoder_failures (P : Prims) (doc : List Nat) (expiration : Int) :
    (P.jsonJwks doc = none →
       UpdatePublicKey P doc expiration = .error (.parse .decodeJson) ∧
       updateErrorKind (.parse .decodeJson) = .malformedDocument) ∧
    (∀ ks, P.jsonJwks doc = some ks → ks.Keys = none →
       UpdatePublicKey P doc expiration = .error (.parse .emptyKeyList) ∧
       updateErrorKind (.parse .emptyKeyList) = .emptyKeySet) ∧
    (∀ ks, P.jsonJwks doc = some ks → ks.Keys = some [] →
       UpdatePublicKey P doc expiration = .error .noPublicKeys ∧
       updateErrorKind .noPublicKeys = .emptyKeySet) ∧
    (∀ ks l1 k l2, P.jsonJwks doc = some ks → ks.Keys = some (l1 ++ k :: l2) →
       (∀ k2 ∈ l1, completeEntry k2) → (k.E = "" ∨ k.N = "" ∨ k.KID = "") →
       UpdatePublicKey P doc expiration = .error .missingInfo ∧
       updateErrorKind .missingInfo = .malformedKeyEntry) ∧
    ((KeySetErrorKind.malformedDocument ≠ KeySetErrorKind.emptyKeySet) ∧
     (KeySetErrorKind.malformedDocument ≠ KeySetErrorKind.malformedKeyEntry) ∧
     (KeySetErrorKind.emptyKeySet ≠ KeySetErrorKind.malformedKeyEntry)) ∧
    (∀ st now kid e, UpdatePublicKey P doc expiration = .error e → st.keyExpire < now →
       (retrieveKey P st (.success doc expiration) now kid).state = st ∧
       (retrieveKey P st (.success doc expiration) now kid).key
         = .error (.updateKeyCache e)) := by
  refine ⟨?_, ?_, ?_, ?_, by decide, ?_⟩
  · intro hj
    refine ⟨?_, rfl⟩
    unfold UpdatePublicKey parseJWKS
    simp [hj]
  · intro ks hj hk
    refine ⟨?_, rfl⟩
    unfold UpdatePublicKey parseJWKS
    simp [hj, hk]
  · intro ks hj hk
    refine ⟨?_, rfl⟩
    unfold UpdatePublicKey parseJWKS
    simp [hj, hk, buildKeyMap]
  · intro ks l1 k l2 hj hk hgood hbad
    refine ⟨?_, rfl⟩
    unfold UpdatePublicKey parseJWKS
    simp [hj, hk, buildKeyMap_missingInfo l1 k l2 hgood hbad]
  · intro st now kid e hupd hstale
    unfold retrieveKey
    rw [if_pos hstale]
    simp [hupd]

/-- C8 witness: four concrete documents exercising the three failure
groups, with their distinct error outcomes. -/
theorem keySetDecoder_failures_witness :
    (UpdatePublicKey testPrims [0] 500 = .error (.parse .decodeJson)) ∧
    (UpdatePublicKey testPrims [1] 500 = .error (.parse .emptyKeyList)) ∧
    (UpdatePublicKey testPrims [2] 500 = .error .noPublicKeys) ∧
    (UpdatePublicKey testPrims [3] 500 = .error .missingInfo) :=
  ⟨((keySetDecoder_failures testPrims [0] 500).1 rfl).1,
   ((keySetDecoder_failures testPrims [1] 500).2.1 ⟨none⟩ rfl rfl).1,
   ((keySetDecoder_failures testPrims [2] 500).2.2.1 ⟨some []⟩ rfl rfl).1,
   ((keySetDecoder_failures testPrims [3] 500).2.2.2.1 ⟨some [⟨"", "aa", "k"⟩]⟩
      [] ⟨"", "aa", "k"⟩ [] rfl rfl (by simp) (Or.inr (Or.inl rfl))).1⟩

/-- C9: on a parseable document with a non-empty entry list all of
whose entries are complete, the decoder succeeds, stores the given
deadline, and produces a key map whose identifier set equals the set
of identifiers appearing in the document. -/
theorem keySetDecoder_success (P : Prims) (doc : List Nat) (expiration : Int)
    (ks : Jwks) (l : List JWKSKey)
    (hjson : P.jsonJwks doc = some ks) (hkeys : ks.Keys = some l) (hne : l ≠ [])
    (hgood : ∀ k ∈ l, completeEntry k) :
    ∃ st, UpdatePublicKey P doc expiration = .ok st ∧
      st.keyExpire = expiration ∧
      (st.publicKeys.map Prod.fst).toFinset = (l.map JWKSKey.KID).toFinset := by
  obtain ⟨m2, h1, h2⟩ := buildKeyMap_complete l hgood []
  have hlen : m2.length = l.length := by
    have h3 := congrArg List.length h2
    simpa using h3
  have hnz : ¬ m2.length = 0 := by
    rw [hlen]
    intro h0
    exact hne (List.length_eq_zero.mp h0)
  refine ⟨⟨m2, expiration⟩, ?_, rfl, ?_⟩
  · unfold UpdatePublicKey parseJWKS
    simp [hjson, hkeys, h1, hnz]
  · have h4 := congrArg List.toFinset h2
    simpa using h4

/-- C9 witness: the one-entry document decoded by the oracle from the
bytes 4 yields the key map holding exactly identifier "k9" and the
supplied deadline. -/
theorem keySetDecoder_success_witness :
    UpdatePublicKey testPrims [4] 500 = .ok ⟨[("k9", ⟨105, 105⟩)], 500⟩ := by
  obtain ⟨st, h1, h2, h3⟩ := keySetDecoder_success testPrims [4] 500
    ⟨some [⟨"aa", "aa", "k9"⟩]⟩ [⟨"aa", "aa", "k9"⟩] rfl rfl (by decide) (by decide)
  rw [h1]
  have h4 : UpdatePublicKey testPrims [4] 500 = .ok ⟨[("k9", ⟨105, 105⟩)], 500⟩ := rfl
  rw [h4] at h1
  rw [← Except.ok.inj h1]

/-- C1: the orchestrator short-circuits in the fixed order
three-segment split, codec decode, algorithm check, key resolution,
signature verification, issuer match, audience match, expiry check,
issued-at check: the earliest failing step's rejection is returned
regardless of the state of every later check, and a failure before key
resolution returns with the cache state unchanged and the fetch
function not invoked. -/
theorem parseAndVerify_first_failure (P : Prims) (v : Verifier) (st : CacheState)
    (fetch : FetchResult) (now : Int) (tok : String) :
    ((splitDots tok).length ≠ 3 →
       ParseAndVerify P v st fetch now tok = ⟨none, some .malformedToken, st, false⟩) ∧
    (∀ h c s, splitDots tok = [h, c, s] → parseJWT P h c s = none →
       ParseAndVerify P v st fetch now tok = ⟨none, some .decodeToken, st, false⟩) ∧
    (∀ h c s t, splitDots tok = [h, c, s] → parseJWT P h c s = some t →
       t.Header.ALG ≠ "RS256" →
       ParseAndVerify P v st fetch now tok
         = ⟨none, some (.unsupportedAlg t.Header.ALG), st, false⟩) ∧
    (∀ h c s t e, splitDots tok = [h, c, s] → parseJWT P h c s = some t →
       t.Header.ALG = "RS256" →
       (retrieveKey P st fetch now t.Header.KID).key = .error e →
       ParseAndVerify P v st fetch now tok
         = ⟨none, some (.retrieveKeyFailed e),
            (retrieveKey P st fetch now t.Header.KID).state,
            (retrieveKey P st fetch now t.Header.KID).fetched⟩) ∧
    (∀ h c s t, splitDots tok = [h, c, s] → parseJWT P h c s = some t →
       t.Header.ALG = "RS256" →
       (retrieveKey P st fetch now t.Header.KID).key = .ok none →
       ParseAndVerify P v st fetch now tok
         = ⟨none, some .keyNotFound,
            (retrieveKey P st fetch now t.Header.KID).state,
            (retrieveKey P st fetch now t.Header.KID).fetched⟩) ∧
    (∀ h c s t key e, splitDots tok = [h, c, s] → parseJWT P h c s = some t →
       t.Header.ALG = "RS256" →
       (retrieveKey P st fetch now t.Header.KID).key = .ok (some key) →
       verifySignature P (h ++ "." ++ c) s key = some e →
       ParseAndVerify P v st fetch now tok
         = ⟨none, some (.badSignature e),
            (retrieveKey P st fetch now t.Header.KID).state,
            (retrieveKey P st fetch now t.Header.KID).fetched⟩) ∧
    (∀ h c s t key, splitDots tok = [h, c, s] → parseJWT P h c s = some t →
       t.Header.ALG = "RS256" →
       (retrieveKey P st fetch now t.Header.KID).key = .ok (some key) →
       verifySignature P (h ++ "." ++ c) s key = none →
       t.Claims.ISS ≠ v.issuer →
       ParseAndVerify P v st fetch now tok
         = ⟨none, some .invalidIssuer,
            (retrieveKey P st fetch now t.Header.KID).state,
            (retrieveKey P st fetch now t.Header.KID).fetched⟩) ∧
    (∀ h c s t key, splitDots tok = [h, c, s] → parseJWT P h c s = some t →
       t.Header.ALG = "RS256" →
       (retrieveKey P st fetch now t.Header.KID).key = .ok (some key) →
       verifySignature P (h ++ "." ++ c) s key = none →
       t.Claims.ISS = v.issuer → t.Claims.AUD ≠ v.clientID →
       ParseAndVerify P v st fetch now tok
         = ⟨none, some .audienceMismatch,
            (retrieveKey P st fetch now t.Header.KID).state,
            (retrieveKey P st fetch now t.Header.KID).fetched⟩) ∧
    (∀ h c s t key, splitDots tok = [h, c, s] → parseJWT P h c s = some t →
       t.Header.ALG = "RS256" →
       (retrieveKey P st fetch now t.Header.KID).key = .ok (some key) →
       verifySignature P (h ++ "." ++ c) s key = none →
       t.Claims.ISS = v.issuer → t.Claims.AUD = v.clientID →
       t.Claims.EXP ≤ now →
       ParseAndVerify P v st fetch now tok
         = ⟨none, some .tokenExpired,
            (retrieveKey P st fetch now t.Header.KID).state,
            (retrieveKey P st fetch now t.Header.KID).fetched⟩) ∧
    (∀ h c s t key, splitDots tok = [h, c, s] → parseJWT P h c s = some t →
       t.Header.ALG = "RS256" →
       (retrieveKey P st fetch now t.Header.KID).key = .ok (some key) →
       verifySignature P (h ++ "." ++ c) s key = none →
       t.Claims.ISS = v.issuer → t.Claims.AUD = v.clientID →
       now < t.Claims.EXP → now < t.Claims.IAT →
       ParseAndVerify P v st fetch now tok
         = ⟨none, some .tokenNotYetValid,
            (retrieveKey P st fetch now t.Header.KID).state,
            (retrieveKey P st fetch now t.Header.KID).fetched⟩) := by
  refine ⟨?_, ?_, ?_, ?_, ?_, ?_, ?_, ?_, ?_, ?_⟩
  · intro hlen
    unfold ParseAndVerify
    rcases hsp : splitDots tok with _ | ⟨a, _ | ⟨b, _ | ⟨c2, _ | ⟨d, l4⟩⟩⟩⟩ <;>
      first
        | rfl
        | (rw [hsp] at hlen; simp at hlen)
  · intro h c s hsp hp
    unfold ParseAndVerify
    rw [hsp]
    simp [hp]
  · intro h c s t hsp hp halg
    unfold ParseAndVerify
    rw [hsp]
    simp [hp, halg]
  · intro h c s t e hsp hp halg hk
    unfold ParseAndVerify
    rw [hsp]
    simp [hp, halg, hk]
  · intro h c s t hsp hp halg hk
    unfold ParseAndVerify
    rw [hsp]
    simp [hp, halg, hk]
  · intro h c s t key e hsp hp halg hk hs
    unfold ParseAndVerify
    rw [hsp]
    simp [hp, halg, hk, hs]
  · intro h c s t key hsp hp halg hk hs hiss
    unfold ParseAndVerify
    rw [hsp]
    simp [hp, halg, hk, hs, hiss]
  · intro h c s t key hsp hp halg hk hs hiss haud
    unfold ParseAndVerify
    rw [hsp]
    simp [hp, halg, hk, hs, hiss, haud]
  · intro h c s t key hsp hp halg hk hs hiss haud hexp
    unfold ParseAndVerify
    rw [hsp]
    simp [hp, halg, hk, hs, hiss, haud, hexp]
  · intro h c s t key hsp hp halg hk hs hiss haud hexp hiat
    have h3 : ¬ t.Claims.EXP ≤ now := not_le.mpr hexp
    unfold ParseAndVerify
    rw [hsp]
    simp [hp, halg, hk, hs, hiss, haud, h3, hiat]

/-- C1 witness: the token "ba.aa.aa" declares algorithm HS256 and its
claims are also expired at time 300, while the cache is stale and the
fetch would fail; the earliest failing check (the algorithm check) is
reported, the cache is untouched and no fetch occurs. -/
theorem parseAndVerify_first_failure_witness :
    ParseAndVerify testPrims testVerifier staleState .failure 300 "ba.aa.aa"
      = ⟨none, some (.unsupportedAlg "HS256"), staleState, false⟩ :=
  (parseAndVerify_first_failure testPrims testVerifier staleState .failure 300
    "ba.aa.aa").2.2.1 "ba" "aa" "aa" ⟨testHeaderWrongAlg, testClaims, "aa"⟩
    rfl rfl (by decide)

end Jwt
